import Mathlib

/-! Slice orchestration and sliced-mesh assembly of godot-slicer.

A shallow embedding of `Slicer::slice_by_plane` (`src/slicer.cpp`) and of `create_surface`,
`create_cross_section_surface`, `create_mesh_half`, `SlicedMesh::create_mesh`
(`src/sliced_mesh.cpp`).

Conventions of the embedding:
* the coordinate type `real_t` is a type parameter `R`: the embedded functions store and copy
  coordinates and never compute with them. `Slicer::slice_mesh` and `Slicer::slice`, which
  compute a plane in `real_t` arithmetic, are not embedded.
* `Ref<T>` is `Option T` (`none` is the null reference).
* `Vector<T>` is `List T`; `resize` pads with the default element, `write[i] = x` is `List.set`.
* a `for` loop over `0 .. n-1` is a `List.foldl` over `List.range n`.
* a vertex record (position together with every optional attribute) is a value of a type `V`.
-/

namespace GodotSlicer

/-! ## Host engine types -/

/-- Three-component vector of the host engine. -/
structure Vector3 (R : Type) where
  x : R
  y : R
  z : R
  deriving DecidableEq, Repr

instance {R : Type} [Inhabited R] : Inhabited (Vector3 R) := ⟨⟨default, default, default⟩⟩

/-- Plane of the host engine: `Plane(normal, d)` stores both fields as given. -/
structure Plane (R : Type) where
  normal : Vector3 R
  d : R
  deriving DecidableEq, Repr

/-- Material resource: one that exists already, or a `StandardMaterial3D` made by `memnew`. -/
inductive Material where
  | resource (id : Nat)
  | standard_material_3d
  deriving DecidableEq, Repr

/-- Reference-counted handle `Ref<T>`; `none` is the null reference. -/
abbrev Ref (T : Type) := Option T

/-! ## Faces and split results -/

/-- Triangle with its three vertex records `vertex[0]`, `vertex[1]`, `vertex[2]`. -/
structure SlicerFace (V : Type) where
  v0 : V
  v1 : V
  v2 : V
  deriving DecidableEq, Repr

instance {V : Type} [Inhabited V] : Inhabited (SlicerFace V) := ⟨⟨default, default, default⟩⟩

/-- Indexing into the three vertex records of a face. -/
def SlicerFace.vertex {V : Type} (f : SlicerFace V) (k : Nat) : V :=
  match k with
  | 0 => f.v0
  | 1 => f.v1
  | _ => f.v2

/-- Record `Intersector::SplitResult` filled while splitting the faces of one surface. -/
structure SplitResult (R V : Type) where
  material : Ref Material
  upper_faces : List (SlicerFace V)
  lower_faces : List (SlicerFace V)
  intersection_points : List (Vector3 R)
  deriving DecidableEq, Repr

instance {R V : Type} : Inhabited (SplitResult R V) := ⟨⟨none, [], [], []⟩⟩

/-! ## Output meshes -/

/-- One surface of an `ArrayMesh`: its vertex buffer (three records per triangle) and material. -/
structure MeshSurface (V : Type) where
  vertices : List V
  material : Ref Material
  deriving DecidableEq, Repr

/-- Mesh `ArrayMesh` of the host engine, as its list of surfaces. -/
structure ArrayMesh (V : Type) where
  surfaces : List (MeshSurface V)
  deriving DecidableEq, Repr

/-- Result of `memnew(ArrayMesh)`: a mesh with no surface. -/
def ArrayMesh.new {V : Type} : ArrayMesh V := ⟨[]⟩

/-- Number of surfaces, `get_surface_count` through a reference. -/
def ArrayMesh.get_surface_count {V : Type} (mesh : Ref (ArrayMesh V)) : Nat :=
  match mesh with
  | some m => m.surfaces.length
  | none => 0

/-- Material of surface `i`, `surface_get_material` through a reference. -/
def ArrayMesh.surface_get_material {V : Type} (mesh : Ref (ArrayMesh V)) (i : Nat) : Ref Material :=
  match mesh with
  | some m => (m.surfaces[i]?).bind MeshSurface.material
  | none => none

/-- Modelled from the spec: `SurfaceFiller` (`utils/surface_filler.h`) is not under `src/`.
It holds the faces it was built from and a vertex buffer of three slots per face. -/
structure SurfaceFiller (V : Type) where
  faces : List (SlicerFace V)
  vertices : List V

/-- Modelled from the spec: the constructor `SurfaceFiller(faces)` sizes the buffer to
`faces.size() * 3` default records. -/
def SurfaceFiller.new {V : Type} [Inhabited V] (faces : List (SlicerFace V)) : SurfaceFiller V :=
  ⟨faces, List.replicate (faces.length * 3) default⟩

/-- Modelled from the spec: `fill(lookup_idx, set_idx)` copies vertex record `lookup_idx % 3` of
face `lookup_idx / 3`, with every attribute, into slot `set_idx` of the buffer. The callers pass
the index pairs `(k, k)`, `(k + 1, k + 2)` and `(k + 2, k + 1)` only, so the buffers they build
are the same if the two arguments have the opposite roles. -/
def SurfaceFiller.fill {V : Type} [Inhabited V] (filler : SurfaceFiller V)
    (lookup_idx set_idx : Nat) : SurfaceFiller V :=
  { filler with
    vertices := filler.vertices.set set_idx
      ((filler.faces.getD (lookup_idx / 3) default).vertex (lookup_idx % 3)) }

/-- Modelled from the spec: `add_to_mesh(mesh, material)` appends the buffer as one new surface
of the mesh and sets that surface's material. -/
def SurfaceFiller.add_to_mesh {V : Type} (filler : SurfaceFiller V) (mesh : ArrayMesh V)
    (material : Ref Material) : ArrayMesh V :=
  ⟨mesh.surfaces ++ [⟨filler.vertices, material⟩]⟩

/-! ## `sliced_mesh.cpp` -/

/-- Embedding of `create_surface`: the result is the state of the referenced mesh afterwards. -/
def create_surface {V : Type} [Inhabited V] (faces : List (SlicerFace V))
    (material : Ref Material) (mesh : Ref (ArrayMesh V)) : Ref (ArrayMesh V) :=
  match mesh with
  | none => none
  | some m =>
    if faces.length = 0 then some m
    else
      let filler := SurfaceFiller.new faces
      let filler := (List.range (faces.length * 3)).foldl (fun fl i => fl.fill i i) filler
      some (filler.add_to_mesh m material)

/-- Embedding of `create_cross_section_surface`. -/
def create_cross_section_surface {V : Type} [Inhabited V] (faces : List (SlicerFace V))
    (material : Ref Material) (mesh : Ref (ArrayMesh V)) (is_upper : Bool) : Ref (ArrayMesh V) :=
  match mesh with
  | none => none
  | some m =>
    if faces.length = 0 then some m
    else
      let filler := SurfaceFiller.new faces
      let filler := (List.range faces.length).foldl
        (fun fl i =>
          if is_upper then
            ((fl.fill (i * 3) (i * 3)).fill (i * 3 + 1) (i * 3 + 2)).fill (i * 3 + 2) (i * 3 + 1)
          else
            ((fl.fill (i * 3) (i * 3)).fill (i * 3 + 1) (i * 3 + 1)).fill (i * 3 + 2) (i * 3 + 2))
        filler
      some (filler.add_to_mesh m material)

/-- Embedding of `create_mesh_half`. -/
def create_mesh_half {R V : Type} [Inhabited V] (surface_splits : List (SplitResult R V))
    (cross_section_faces : List (SlicerFace V)) (cross_section_material : Ref Material)
    (is_upper : Bool) : Ref (ArrayMesh V) :=
  let mesh : Ref (ArrayMesh V) := some ArrayMesh.new
  let mesh := (List.range surface_splits.length).foldl
    (fun mesh i =>
      if is_upper then
        create_surface (surface_splits.getD i default).upper_faces
          (surface_splits.getD i default).material mesh
      else
        create_surface (surface_splits.getD i default).lower_faces
          (surface_splits.getD i default).material mesh)
    mesh
  let cross_section_material :=
    if cross_section_material.isNone ∧ ArrayMesh.get_surface_count mesh > 0 then
      ArrayMesh.surface_get_material mesh 0
    else if cross_section_material.isNone then
      some Material.standard_material_3d
    else cross_section_material
  create_cross_section_surface cross_section_faces cross_section_material mesh is_upper

/-- Resource `SlicedMesh` with its two mesh references. -/
structure SlicedMesh (V : Type) where
  upper_mesh : Ref (ArrayMesh V)
  lower_mesh : Ref (ArrayMesh V)
  deriving DecidableEq, Repr

/-- Result of `instantiate()`: both references null. -/
def SlicedMesh.instantiate {V : Type} : SlicedMesh V := ⟨none, none⟩

/-- Embedding of `SlicedMesh::create_mesh`. -/
def SlicedMesh.create_mesh {R V : Type} [Inhabited V] (_self : SlicedMesh V)
    (surface_splits : List (SplitResult R V)) (cross_section_faces : List (SlicerFace V))
    (cross_section_material : Ref Material) : SlicedMesh V :=
  { upper_mesh := create_mesh_half surface_splits cross_section_faces cross_section_material true
    lower_mesh := create_mesh_half surface_splits cross_section_faces cross_section_material false }

/-! ## `slicer.cpp` -/

/-- One surface of the input mesh: its material reference and its vertex/index arrays. -/
structure Surface (A : Type) where
  material : Ref Material
  arrays : A
  deriving DecidableEq, Repr

/-- Input mesh `Mesh` of the host engine, as its list of surfaces. -/
structure Mesh (A : Type) where
  surfaces : List (Surface A)
  deriving DecidableEq, Repr

/-- Number of surfaces, `Mesh::get_surface_count`. -/
def Mesh.get_surface_count {A : Type} (mesh : Mesh A) : Nat := mesh.surfaces.length

/-- Material of surface `i`, `Mesh::surface_get_material`. -/
def Mesh.surface_get_material {A : Type} (mesh : Mesh A) (i : Nat) : Ref Material :=
  (mesh.surfaces[i]?).bind Surface.material

/-- Modelled from the spec: `SlicerFace::faces_from_surface` (`utils/slicer_face.h`) is not under
`src/`. It converts surface `i` of the mesh into its ordered sequence of triangles; the
conversion of one surface's arrays is the parameter `surface_faces`. -/
def faces_from_surface {V A : Type} (surface_faces : A → List (SlicerFace V)) (mesh : Mesh A)
    (i : Nat) : List (SlicerFace V) :=
  match mesh.surfaces[i]? with
  | some s => surface_faces s.arrays
  | none => []

/-- Body of the loop over the surfaces in `Slicer::slice_by_plane` (lines 50 to 66), for
surface `i`; the state is the pair `split_results`, `intersection_points`.
`Intersector::split_face_by_plane` (`utils/intersector.h`, not under `src/`) is a parameter; it
receives the result record by reference, so here it maps the record to its new state. -/
def split_surfaces_step {R V A : Type} [Inhabited R] [Inhabited V]
    (split_face_by_plane : Plane R → SlicerFace V → SplitResult R V → SplitResult R V)
    (surface_faces : A → List (SlicerFace V)) (mesh : Mesh A) (plane : Plane R)
    (st : List (SplitResult R V) × List (Vector3 R)) (i : Nat) :
    List (SplitResult R V) × List (Vector3 R) :=
  let results := st.1.getD i default
  let results := { results with material := mesh.surface_get_material i }
  let faces := faces_from_surface surface_faces mesh i
  let results := (List.range faces.length).foldl
    (fun r j => split_face_by_plane plane (faces.getD j default) r) results
  let ip_size := st.2.length
  let points := st.2 ++ List.replicate results.intersection_points.length default
  let points := (List.range results.intersection_points.length).foldl
    (fun pts j => pts.set (ip_size + j) (results.intersection_points.getD j default)) points
  let results := { results with intersection_points := [] }
  (st.1.set i results, points)

/-- Lines 43 to 67 of `Slicer::slice_by_plane`: the loop over the surfaces, which returns the
final `split_results` and `intersection_points`. -/
def split_surfaces {R V A : Type} [Inhabited R] [Inhabited V]
    (split_face_by_plane : Plane R → SlicerFace V → SplitResult R V → SplitResult R V)
    (surface_faces : A → List (SlicerFace V)) (mesh : Mesh A) (plane : Plane R) :
    List (SplitResult R V) × List (Vector3 R) :=
  let split_results : List (SplitResult R V) := List.replicate mesh.get_surface_count default
  let intersection_points : List (Vector3 R) := []
  (List.range mesh.get_surface_count).foldl
    (split_surfaces_step split_face_by_plane surface_faces mesh plane)
    (split_results, intersection_points)

/-- Embedding of `Slicer::slice_by_plane`. `Triangulator::monotone_chain`
(`utils/triangulator.h`, not under `src/`) is a parameter. -/
def slice_by_plane {R V A : Type} [Inhabited R] [Inhabited V]
    (split_face_by_plane : Plane R → SlicerFace V → SplitResult R V → SplitResult R V)
    (surface_faces : A → List (SlicerFace V))
    (monotone_chain : List (Vector3 R) → Vector3 R → List (SlicerFace V))
    (mesh : Ref (Mesh A)) (plane : Plane R) (cross_section_material : Ref Material) :
    Ref (SlicedMesh V) :=
  match mesh with
  | none => none
  | some mesh =>
    let st := split_surfaces split_face_by_plane surface_faces mesh plane
    if st.2.length = 0 then none
    else
      let cross_section_faces := monotone_chain st.2 plane.normal
      some (SlicedMesh.instantiate.create_mesh st.1 cross_section_faces cross_section_material)

/-! ## Notions used to state the properties -/

/-- The three vertex records of a face, in order. -/
def SlicerFace.vertices {V : Type} (f : SlicerFace V) : List V := [f.v0, f.v1, f.v2]

/-- The face with the opposite winding: `(a, b, c)` becomes `(a, c, b)`. -/
def SlicerFace.flipped {V : Type} (f : SlicerFace V) : SlicerFace V := ⟨f.v0, f.v2, f.v1⟩

/-- Triangle `i` of a surface, read back from slots `3i`, `3i+1`, `3i+2` of its buffer. -/
def MeshSurface.triangle {V : Type} [Inhabited V] (s : MeshSurface V) (i : Nat) : SlicerFace V :=
  ⟨s.vertices.getD (3 * i) default, s.vertices.getD (3 * i + 1) default,
   s.vertices.getD (3 * i + 2) default⟩

/-- The faces of one side of a split result. -/
def SplitResult.side_faces {R V : Type} (r : SplitResult R V) (is_upper : Bool) :
    List (SlicerFace V) :=
  if is_upper then r.upper_faces else r.lower_faces

/-- The faces as the cap of one half holds them: flipped for the upper half, as they are for
the lower half. -/
def cap_faces {V : Type} (faces : List (SlicerFace V)) (is_upper : Bool) : List (SlicerFace V) :=
  if is_upper then faces.map SlicerFace.flipped else faces

/-- The surfaces that hold original geometry in one half: one for each split result whose face
list for that side is not empty, with those faces verbatim under that result's material. -/
def half_surfaces {R V : Type} (surface_splits : List (SplitResult R V)) (is_upper : Bool) :
    List (MeshSurface V) :=
  (surface_splits.filter (fun r => !(r.side_faces is_upper).isEmpty)).map
    (fun r => ⟨(r.side_faces is_upper).flatMap SlicerFace.vertices, r.material⟩)

/-- The material the cap of a half gets, given the material passed by the caller and the
surfaces that the half holds already. -/
def cap_material {V : Type} (cross_section_material : Ref Material)
    (surfaces : List (MeshSurface V)) : Ref Material :=
  match cross_section_material with
  | some m => some m
  | none =>
    match surfaces with
    | s :: _ => s.material
    | [] => some Material.standard_material_3d

/-- Split result of one surface on its own: its faces split in order, starting from the empty
record that carries the surface's material. -/
def split_surface {R V A : Type}
    (split_face_by_plane : Plane R → SlicerFace V → SplitResult R V → SplitResult R V)
    (surface_faces : A → List (SlicerFace V)) (plane : Plane R) (s : Surface A) :
    SplitResult R V :=
  (surface_faces s.arrays).foldl (fun r f => split_face_by_plane plane f r)
    ⟨s.material, [], [], []⟩

/-- The split result of a surface as `slice_by_plane` stores it: its boundary points have been
moved out to the shared collection. -/
def stored_split {R V A : Type}
    (split_face_by_plane : Plane R → SlicerFace V → SplitResult R V → SplitResult R V)
    (surface_faces : A → List (SlicerFace V)) (plane : Plane R) (s : Surface A) :
    SplitResult R V :=
  { split_surface split_face_by_plane surface_faces plane s with intersection_points := [] }

/-- Boundary points of the whole mesh: per-surface boundary points, concatenated in
surface order. -/
def boundary_points {R V A : Type}
    (split_face_by_plane : Plane R → SlicerFace V → SplitResult R V → SplitResult R V)
    (surface_faces : A → List (SlicerFace V)) (plane : Plane R) (mesh : Mesh A) :
    List (Vector3 R) :=
  (mesh.surfaces.map (fun s =>
    (split_surface split_face_by_plane surface_faces plane s).intersection_points)).flatten

/-! ## Concrete instances used in the examples

The splitter and the triangulator are parameters of the embedding. The examples run it on
integer coordinates with the instances below. -/

/-- Dot product of two vectors with integer coordinates. -/
def Vector3.dot (a b : Vector3 ℤ) : ℤ :=
  a.x * b.x + a.y * b.y + a.z * b.z

/-- Signed distance of a point with integer coordinates to a plane with integer normal and
distance term: the dot product with the normal, minus the distance term. -/
def Plane.distance_to (p : Plane ℤ) (point : Vector3 ℤ) : ℤ :=
  p.normal.dot point - p.d

/-- Point of the edge from `p` to `q` on the plane, by linear interpolation at the zero of the
signed distance (exact whenever the division is). -/
def example_cut (plane : Plane ℤ) (p q : Vector3 ℤ) : Vector3 ℤ :=
  let dp := plane.distance_to p
  let dq := plane.distance_to q
  ⟨p.x + (q.x - p.x) * dp / (dp - dq), p.y + (q.y - p.y) * dp / (dp - dq),
   p.z + (q.z - p.z) * dp / (dp - dq)⟩

/-- The same triangle, started one vertex later (the winding is kept). -/
def example_rotate (f : SlicerFace (Vector3 ℤ)) : SlicerFace (Vector3 ℤ) := ⟨f.v1, f.v2, f.v0⟩

/-- A plane splitter on integer coordinates: a face with no vertex strictly below the plane is
appended to the upper faces, one with no vertex strictly above to the lower faces; a face with
one vertex alone on its side gives one triangle on that side, two on the other side and two
boundary points; a face with one vertex on the plane and the others on opposite sides gives one
triangle on each side. Nothing but the three lists of the record is touched. -/
def example_split_face_by_plane (plane : Plane ℤ) (face : SlicerFace (Vector3 ℤ))
    (result : SplitResult ℤ (Vector3 ℤ)) : SplitResult ℤ (Vector3 ℤ) :=
  let d0 := plane.distance_to face.v0
  let d1 := plane.distance_to face.v1
  let d2 := plane.distance_to face.v2
  if 0 ≤ d0 ∧ 0 ≤ d1 ∧ 0 ≤ d2 then
    { result with upper_faces := result.upper_faces ++ [face] }
  else if d0 ≤ 0 ∧ d1 ≤ 0 ∧ d2 ≤ 0 then
    { result with lower_faces := result.lower_faces ++ [face] }
  else
    let f :=
      if d0 = 0 ∨ Int.sign d1 = Int.sign d2 then face
      else if d1 = 0 ∨ Int.sign d2 = Int.sign d0 then example_rotate face
      else example_rotate (example_rotate face)
    let da := plane.distance_to f.v0
    let db := plane.distance_to f.v1
    if da = 0 then
      let p := example_cut plane f.v1 f.v2
      let with_b : SlicerFace (Vector3 ℤ) := ⟨f.v0, f.v1, p⟩
      let with_c : SlicerFace (Vector3 ℤ) := ⟨f.v0, p, f.v2⟩
      if 0 < db then
        { result with
          upper_faces := result.upper_faces ++ [with_b]
          lower_faces := result.lower_faces ++ [with_c]
          intersection_points := result.intersection_points ++ [f.v0, p] }
      else
        { result with
          upper_faces := result.upper_faces ++ [with_c]
          lower_faces := result.lower_faces ++ [with_b]
          intersection_points := result.intersection_points ++ [f.v0, p] }
    else
      let p := example_cut plane f.v0 f.v1
      let q := example_cut plane f.v0 f.v2
      let tip : List (SlicerFace (Vector3 ℤ)) := [⟨f.v0, p, q⟩]
      let quad : List (SlicerFace (Vector3 ℤ)) := [⟨p, f.v1, f.v2⟩, ⟨p, f.v2, q⟩]
      if 0 < da then
        { result with
          upper_faces := result.upper_faces ++ tip
          lower_faces := result.lower_faces ++ quad
          intersection_points := result.intersection_points ++ [p, q] }
      else
        { result with
          upper_faces := result.upper_faces ++ quad
          lower_faces := result.lower_faces ++ tip
          intersection_points := result.intersection_points ++ [p, q] }

/-- A triangulator for the examples: repeated points are dropped and the points that remain,
in the order given, are fanned from the first one (fewer than three points give no triangle).
The boundary points of the examples are the corners of one triangle. -/
def example_monotone_chain (points : List (Vector3 ℤ)) (_normal : Vector3 ℤ) :
    List (SlicerFace (Vector3 ℤ)) :=
  match points.eraseDups with
  | [] => []
  | p0 :: rest => (rest.zip rest.tail).map (fun pq => ⟨p0, pq.1, pq.2⟩)

/-- The horizontal plane `y = 0` with normal `(0, 1, 0)`. -/
def example_plane : Plane ℤ := ⟨⟨0, 1, 0⟩, 0⟩

/-- The four faces of a tetrahedron whose base lies at height `h - 2` and apex at `h + 2`. -/
def example_tetrahedron (h : ℤ) : List (SlicerFace (Vector3 ℤ)) :=
  let b1 : Vector3 ℤ := ⟨-2, h - 2, -2⟩
  let b2 : Vector3 ℤ := ⟨2, h - 2, -2⟩
  let b3 : Vector3 ℤ := ⟨0, h - 2, 2⟩
  let t : Vector3 ℤ := ⟨0, h + 2, 0⟩
  [⟨t, b1, b2⟩, ⟨t, b2, b3⟩, ⟨t, b3, b1⟩, ⟨b1, b3, b2⟩]

/-- A mesh of two surfaces: surface 0, without material, is a tetrahedron wholly above the plane
`y = 0`; surface 1, with material 7, is a tetrahedron that the plane crosses. -/
def example_mesh : Mesh (List (SlicerFace (Vector3 ℤ))) :=
  ⟨[⟨none, example_tetrahedron 10⟩, ⟨some (Material.resource 7), example_tetrahedron 0⟩]⟩

/-- A mesh of two surfaces: surface 0, with material 5, is a tetrahedron wholly below the plane
`y = 0`; surface 1, with material 7, is a tetrahedron that the plane crosses. -/
def example_mesh_below : Mesh (List (SlicerFace (Vector3 ℤ))) :=
  ⟨[⟨some (Material.resource 5), example_tetrahedron (-10)⟩,
    ⟨some (Material.resource 7), example_tetrahedron 0⟩]⟩

/-- The materials of the surfaces of a mesh, in surface order. -/
def ArrayMesh.materials {V : Type} (mesh : Ref (ArrayMesh V)) : List (Ref Material) :=
  match mesh with
  | some m => m.surfaces.map MeshSurface.material
  | none => []

/-- A mesh of one surface that lies wholly above the plane `y = 0`. -/
def example_mesh_above : Mesh (List (SlicerFace (Vector3 ℤ))) :=
  ⟨[⟨some (Material.resource 7), example_tetrahedron 10⟩]⟩

/-! ## Loops over buffers -/

theorem foldl_set_range {α : Type} (g : Nat → α) (d : α) (pre : List α) (n : Nat)
    (post : List α) :
    (List.range n).foldl (fun buf j => buf.set (pre.length + j) (g j))
      (pre ++ (List.replicate n d ++ post)) = pre ++ ((List.range n).map g ++ post) := by
  induction n generalizing post with
  | zero => simp
  | succ n ih =>
    rw [List.range_succ, List.foldl_append, List.replicate_succ', List.append_assoc, ih]
    simp [List.set_append]

theorem map_range_getD {α : Type} (l : List α) (d : α) :
    (List.range l.length).map (fun j => l.getD j d) = l := by
  apply List.ext_getElem
  · simp
  · intro i h1 h2
    simp at h1
    simp [h1]

theorem foldl_range_getD {α β : Type} (f : α → β → β) (l : List α) (d : α) (init : β) :
    (List.range l.length).foldl (fun r j => f (l.getD j d) r) init
      = l.foldl (fun r x => f x r) init := by
  have h := List.foldl_map (fun j => l.getD j d) (fun r x => f x r) (List.range l.length) init
  rw [map_range_getD] at h
  exact h.symm

theorem set3_append {α : Type} (pre rest : List α) (i : Nat) (h : pre.length = i * 3)
    (x0 x1 x2 y0 y1 y2 : α) :
    (((pre ++ x0 :: x1 :: x2 :: rest).set (i * 3) y0).set (i * 3 + 1) y1).set (i * 3 + 2) y2
      = pre ++ y0 :: y1 :: y2 :: rest := by
  rw [← h]
  simp [List.set_append]

theorem set3_append_swap {α : Type} (pre rest : List α) (i : Nat) (h : pre.length = i * 3)
    (x0 x1 x2 y0 y1 y2 : α) :
    (((pre ++ x0 :: x1 :: x2 :: rest).set (i * 3) y0).set (i * 3 + 2) y1).set (i * 3 + 1) y2
      = pre ++ y0 :: y2 :: y1 :: rest := by
  rw [← h]
  simp [List.set_append]

theorem replicate_succ_mul3 {α : Type} (n : Nat) (d : α) :
    List.replicate ((n + 1) * 3) d = d :: d :: d :: List.replicate (n * 3) d := by
  have : (n + 1) * 3 = n * 3 + 1 + 1 + 1 := by ring
  rw [this]
  rfl

/-! ## The surface filler -/

theorem length_flatMap_vertices {V : Type} (fs : List (SlicerFace V)) :
    (fs.flatMap SlicerFace.vertices).length = fs.length * 3 := by
  induction fs with
  | nil => rfl
  | cons f t ih => simp [List.flatMap_cons, SlicerFace.vertices, ih]; ring

theorem vertex_default {V : Type} [Inhabited V] (k : Nat) :
    (default : SlicerFace V).vertex k = default := by
  unfold SlicerFace.vertex
  split <;> rfl

theorem getD_flatMap_vertices {V : Type} [Inhabited V] (fs : List (SlicerFace V)) (i : Nat) :
    (fs.flatMap SlicerFace.vertices).getD i default
      = (fs.getD (i / 3) default).vertex (i % 3) := by
  induction fs generalizing i with
  | nil => simp [vertex_default]
  | cons f t ih =>
    match i with
    | 0 => simp [SlicerFace.vertices, SlicerFace.vertex]
    | 1 => simp [SlicerFace.vertices, SlicerFace.vertex]
    | 2 => simp [SlicerFace.vertices, SlicerFace.vertex]
    | j + 3 =>
      have h1 : (j + 3) / 3 = j / 3 + 1 := by omega
      have h2 : (j + 3) % 3 = j % 3 := by omega
      have := ih j
      simp only [List.getD_eq_getElem?_getD] at this ⊢
      rw [h1, h2, List.getElem?_cons_succ, ← this]
      simp [List.flatMap_cons, SlicerFace.vertices]

theorem fill_foldl {V : Type} [Inhabited V] (fs : List (SlicerFace V)) (l : List Nat)
    (buf : List V) :
    l.foldl (fun fl i => fl.fill i i) (⟨fs, buf⟩ : SurfaceFiller V)
      = ⟨fs, l.foldl (fun b i => b.set i ((fs.getD (i / 3) default).vertex (i % 3))) buf⟩ := by
  induction l generalizing buf with
  | nil => rfl
  | cons i t ih =>
    simp only [List.foldl_cons]
    exact ih _

/-- The loop of `create_surface` leaves the buffer holding the faces verbatim. -/
theorem create_surface_loop {V : Type} [Inhabited V] (fs : List (SlicerFace V)) :
    (List.range (fs.length * 3)).foldl (fun fl i => fl.fill i i) (SurfaceFiller.new fs)
      = ⟨fs, fs.flatMap SlicerFace.vertices⟩ := by
  unfold SurfaceFiller.new
  rw [fill_foldl]
  congr 1
  have h := foldl_set_range (fun i => (fs.getD (i / 3) default).vertex (i % 3))
    (default : V) [] (fs.length * 3) []
  simp only [List.length_nil, Nat.zero_add, List.nil_append, List.append_nil] at h
  rw [h]
  have h2 := map_range_getD (fs.flatMap SlicerFace.vertices) (default : V)
  rw [length_flatMap_vertices] at h2
  rw [← h2]
  apply List.map_congr_left
  intro i _
  exact (getD_flatMap_vertices fs i).symm

theorem cap_fill_foldl {V : Type} [Inhabited V] (fs : List (SlicerFace V)) (is_upper : Bool)
    (k : Nat) (hk : k ≤ fs.length) :
    (List.range k).foldl
        (fun fl i =>
          if is_upper then
            ((fl.fill (i * 3) (i * 3)).fill (i * 3 + 1) (i * 3 + 2)).fill (i * 3 + 2) (i * 3 + 1)
          else
            ((fl.fill (i * 3) (i * 3)).fill (i * 3 + 1) (i * 3 + 1)).fill (i * 3 + 2) (i * 3 + 2))
        (SurfaceFiller.new fs)
      = ⟨fs, (cap_faces (fs.take k) is_upper).flatMap SlicerFace.vertices
              ++ List.replicate ((fs.length - k) * 3) default⟩ := by
  induction k with
  | zero => simp [SurfaceFiller.new, cap_faces]
  | succ k ih =>
    rw [List.range_succ, List.foldl_append, ih (by omega)]
    obtain ⟨m, hm⟩ : ∃ m, fs.length - k = m + 1 := ⟨fs.length - k - 1, by omega⟩
    have hm2 : fs.length - (k + 1) = m := by omega
    have hlen : ((cap_faces (fs.take k) is_upper).flatMap SlicerFace.vertices).length = k * 3 := by
      rw [length_flatMap_vertices]
      cases is_upper <;> simp [cap_faces] <;> omega
    have hk2 : k < fs.length := by omega
    have e0 : k * 3 / 3 = k := by omega
    have e1 : (k * 3 + 1) / 3 = k := by omega
    have e2 : (k * 3 + 2) / 3 = k := by omega
    have m0 : k * 3 % 3 = 0 := by omega
    have m1 : (k * 3 + 1) % 3 = 1 := by omega
    have m2 : (k * 3 + 2) % 3 = 2 := by omega
    have htake : fs.take (k + 1) = fs.take k ++ [fs[k]] := by
      rw [List.take_succ]; simp [hk2]
    have hget : fs.getD k default = fs[k] := by simp [hk2]
    rw [hm, hm2, replicate_succ_mul3, htake]
    cases is_upper
    · simp only [List.foldl_cons, List.foldl_nil, SurfaceFiller.fill, Bool.false_eq_true,
        if_false, e0, e1, e2, m0, m1, m2, hget]
      rw [set3_append _ _ _ hlen]
      simp only [cap_faces, Bool.false_eq_true, if_false, List.flatMap_append, List.flatMap_cons,
        List.flatMap_nil, SlicerFace.vertices, SlicerFace.vertex, List.append_assoc,
        List.cons_append, List.nil_append, List.append_nil]
    · simp only [List.foldl_cons, List.foldl_nil, SurfaceFiller.fill, if_true, e0, e1, e2, m0,
        m1, m2, hget]
      rw [set3_append_swap _ _ _ hlen]
      simp only [cap_faces, if_true, List.map_append, List.map_cons, List.map_nil,
        List.flatMap_append, List.flatMap_cons, List.flatMap_nil, SlicerFace.vertices,
        SlicerFace.vertex, SlicerFace.flipped, List.append_assoc, List.cons_append,
        List.nil_append, List.append_nil]

/-- Closed form of `create_surface` on a mesh that exists. -/
theorem create_surface_some {V : Type} [Inhabited V] (faces : List (SlicerFace V))
    (material : Ref Material) (m : ArrayMesh V) :
    create_surface faces material (some m)
      = some ⟨m.surfaces ++
          (if faces.isEmpty then [] else [⟨faces.flatMap SlicerFace.vertices, material⟩])⟩ := by
  unfold create_surface
  cases faces with
  | nil => simp
  | cons f t =>
    simp only [create_surface_loop]
    simp [SurfaceFiller.add_to_mesh]

/-- Closed form of `create_cross_section_surface` on a mesh that exists. -/
theorem create_cross_section_surface_some {V : Type} [Inhabited V] (faces : List (SlicerFace V))
    (material : Ref Material) (m : ArrayMesh V) (is_upper : Bool) :
    create_cross_section_surface faces material (some m) is_upper
      = some ⟨m.surfaces ++
          (if faces.isEmpty then []
           else [⟨(cap_faces faces is_upper).flatMap SlicerFace.vertices, material⟩])⟩ := by
  unfold create_cross_section_surface
  cases faces with
  | nil => simp
  | cons f t =>
    simp only [cap_fill_foldl (f :: t) is_upper (f :: t).length (Nat.le_refl _)]
    simp [SurfaceFiller.add_to_mesh]

theorem create_surface_foldl {R V : Type} [Inhabited V] (l : List (SplitResult R V))
    (is_upper : Bool) (m : ArrayMesh V) :
    l.foldl (fun mesh r =>
        if is_upper then create_surface r.upper_faces r.material mesh
        else create_surface r.lower_faces r.material mesh) (some m)
      = some ⟨m.surfaces ++ half_surfaces l is_upper⟩ := by
  induction l generalizing m with
  | nil => simp [half_surfaces]
  | cons r t ih =>
    simp only [List.foldl_cons]
    cases is_upper
    · simp only [Bool.false_eq_true, if_false, create_surface_some] at ih ⊢
      rw [ih]
      cases h : r.lower_faces <;>
        simp [half_surfaces, SplitResult.side_faces, List.filter_cons, h]
    · simp only [if_true, create_surface_some] at ih ⊢
      rw [ih]
      cases h : r.upper_faces <;>
        simp [half_surfaces, SplitResult.side_faces, List.filter_cons, h]

/-- Closed form of `create_mesh_half`. -/
theorem create_mesh_half_eq {R V : Type} [Inhabited V] (surface_splits : List (SplitResult R V))
    (cross_section_faces : List (SlicerFace V)) (cross_section_material : Ref Material)
    (is_upper : Bool) :
    create_mesh_half surface_splits cross_section_faces cross_section_material is_upper
      = some ⟨half_surfaces surface_splits is_upper ++
          (if cross_section_faces.isEmpty then []
           else [⟨(cap_faces cross_section_faces is_upper).flatMap SlicerFace.vertices,
                  cap_material cross_section_material
                    (half_surfaces surface_splits is_upper)⟩])⟩ := by
  unfold create_mesh_half
  have hloop := foldl_range_getD
    (fun (r : SplitResult R V) (mesh : Ref (ArrayMesh V)) =>
      if is_upper then create_surface r.upper_faces r.material mesh
      else create_surface r.lower_faces r.material mesh)
    surface_splits default (some ArrayMesh.new)
  rw [create_surface_foldl] at hloop
  simp only [ArrayMesh.new, List.nil_append] at hloop
  simp only [ArrayMesh.new]
  rw [hloop, create_cross_section_surface_some]
  congr 3
  cases cross_section_material with
  | some x => simp [cap_material]
  | none =>
    cases h : half_surfaces surface_splits is_upper with
    | nil => simp [cap_material, ArrayMesh.get_surface_count]
    | cons s t =>
      simp [cap_material, ArrayMesh.get_surface_count, ArrayMesh.surface_get_material]

/-! ## The surface loop of `slice_by_plane` -/

theorem split_surfaces_step_eq {R V A : Type} [Inhabited R] [Inhabited V]
    (split_face_by_plane : Plane R → SlicerFace V → SplitResult R V → SplitResult R V)
    (surface_faces : A → List (SlicerFace V)) (mesh : Mesh A) (plane : Plane R)
    (done : List (SplitResult R V)) (m : Nat) (points : List (Vector3 R))
    (hk : done.length < mesh.surfaces.length) :
    split_surfaces_step split_face_by_plane surface_faces mesh plane
        (done ++ List.replicate (m + 1) default, points) done.length
      = (done ++ [stored_split split_face_by_plane surface_faces plane
                    (mesh.surfaces[done.length])]
          ++ List.replicate m default,
         points ++ (split_surface split_face_by_plane surface_faces plane
                    (mesh.surfaces[done.length])).intersection_points) := by
  unfold split_surfaces_step
  have hget : (done ++ List.replicate (m + 1) (default : SplitResult R V)).getD done.length
      default = default := by
    rw [List.getD_eq_getElem?_getD, List.getElem?_append_right (Nat.le_refl _)]
    simp
  have hmat : mesh.surface_get_material done.length = (mesh.surfaces[done.length]).material := by
    simp [Mesh.surface_get_material, hk]
  have hfaces : faces_from_surface surface_faces mesh done.length
      = surface_faces (mesh.surfaces[done.length]).arrays := by
    simp [faces_from_surface, hk]
  simp only [hget, hmat, hfaces]
  rw [foldl_range_getD (fun f r => split_face_by_plane plane f r)]
  have hdef : ({ (default : SplitResult R V) with
      material := (mesh.surfaces[done.length]).material } : SplitResult R V)
      = ⟨(mesh.surfaces[done.length]).material, [], [], []⟩ := rfl
  rw [hdef]
  change (_, _) = _
  have hpts := foldl_set_range
    (fun j => (split_surface split_face_by_plane surface_faces plane
      (mesh.surfaces[done.length])).intersection_points.getD j default)
    (default : Vector3 R) points
    (split_surface split_face_by_plane surface_faces plane
      (mesh.surfaces[done.length])).intersection_points.length []
  simp only [List.append_nil] at hpts
  rw [map_range_getD] at hpts
  refine Prod.ext ?_ ?_
  · simp [stored_split, split_surface, List.replicate_succ, List.set_append]
  · exact hpts

theorem split_surfaces_foldl {R V A : Type} [Inhabited R] [Inhabited V]
    (split_face_by_plane : Plane R → SlicerFace V → SplitResult R V → SplitResult R V)
    (surface_faces : A → List (SlicerFace V)) (mesh : Mesh A) (plane : Plane R)
    (k : Nat) (hk : k ≤ mesh.surfaces.length) :
    (List.range k).foldl (split_surfaces_step split_face_by_plane surface_faces mesh plane)
        (List.replicate mesh.surfaces.length default, [])
      = ((mesh.surfaces.take k).map (stored_split split_face_by_plane surface_faces plane)
          ++ List.replicate (mesh.surfaces.length - k) default,
         ((mesh.surfaces.take k).map (fun s =>
            (split_surface split_face_by_plane surface_faces plane s).intersection_points)).flatten)
    := by
  induction k with
  | zero => simp
  | succ k ih =>
    rw [List.range_succ, List.foldl_append, ih (by omega)]
    have hk2 : k < mesh.surfaces.length := by omega
    obtain ⟨m, hm⟩ : ∃ m, mesh.surfaces.length - k = m + 1 :=
      ⟨mesh.surfaces.length - k - 1, by omega⟩
    have hm2 : mesh.surfaces.length - (k + 1) = m := by omega
    have htake : mesh.surfaces.take (k + 1) = mesh.surfaces.take k ++ [mesh.surfaces[k]] := by
      rw [List.take_succ]; simp [hk2]
    have hlen : ((mesh.surfaces.take k).map
        (stored_split split_face_by_plane surface_faces plane)).length = k := by
      simp; omega
    simp only [List.foldl_cons, List.foldl_nil]
    rw [hm, hm2, htake]
    have hstep := split_surfaces_step_eq split_face_by_plane surface_faces mesh plane
      ((mesh.surfaces.take k).map (stored_split split_face_by_plane surface_faces plane)) m
      ((mesh.surfaces.take k).map (fun s =>
        (split_surface split_face_by_plane surface_faces plane s).intersection_points)).flatten
      (by rw [hlen]; exact hk2)
    simp only [hlen] at hstep
    rw [hstep]
    simp only [List.map_append, List.map_cons, List.map_nil, List.flatten_append,
      List.flatten_cons, List.flatten_nil, List.append_nil]

/-- Closed form of the surface loop: one stored split result per surface, in surface order, and
the boundary points of all surfaces concatenated in surface order. -/
theorem split_surfaces_eq {R V A : Type} [Inhabited R] [Inhabited V]
    (split_face_by_plane : Plane R → SlicerFace V → SplitResult R V → SplitResult R V)
    (surface_faces : A → List (SlicerFace V)) (mesh : Mesh A) (plane : Plane R) :
    split_surfaces split_face_by_plane surface_faces mesh plane
      = (mesh.surfaces.map (stored_split split_face_by_plane surface_faces plane),
         boundary_points split_face_by_plane surface_faces plane mesh) := by
  unfold split_surfaces Mesh.get_surface_count
  have h := split_surfaces_foldl split_face_by_plane surface_faces mesh plane
    mesh.surfaces.length (Nat.le_refl _)
  simp only [List.take_length, Nat.sub_self, List.replicate_zero, List.append_nil] at h
  rw [h]
  rfl

/-- Closed form of `slice_by_plane` on a mesh that exists. -/
theorem slice_by_plane_some {R V A : Type} [Inhabited R] [Inhabited V]
    (split_face_by_plane : Plane R → SlicerFace V → SplitResult R V → SplitResult R V)
    (surface_faces : A → List (SlicerFace V))
    (monotone_chain : List (Vector3 R) → Vector3 R → List (SlicerFace V))
    (mesh : Mesh A) (plane : Plane R) (cross_section_material : Ref Material) :
    slice_by_plane split_face_by_plane surface_faces monotone_chain (some mesh) plane
        cross_section_material
      = if (boundary_points split_face_by_plane surface_faces plane mesh).isEmpty then none
        else some (SlicedMesh.instantiate.create_mesh
          (mesh.surfaces.map (stored_split split_face_by_plane surface_faces plane))
          (monotone_chain (boundary_points split_face_by_plane surface_faces plane mesh)
            plane.normal)
          cross_section_material) := by
  unfold slice_by_plane
  simp only [split_surfaces_eq]
  cases h : boundary_points split_face_by_plane surface_faces plane mesh <;> simp

/-! ## Reading triangles back from a surface -/

theorem triangle_flatMap_vertices {V : Type} [Inhabited V] (fs : List (SlicerFace V))
    (material : Ref Material) (i : Nat) :
    (⟨fs.flatMap SlicerFace.vertices, material⟩ : MeshSurface V).triangle i
      = fs.getD i default := by
  have e0 : 3 * i / 3 = i := by omega
  have e1 : (3 * i + 1) / 3 = i := by omega
  have e2 : (3 * i + 2) / 3 = i := by omega
  have m0 : 3 * i % 3 = 0 := by omega
  have m1 : (3 * i + 1) % 3 = 1 := by omega
  have m2 : (3 * i + 2) % 3 = 2 := by omega
  simp only [MeshSurface.triangle, getD_flatMap_vertices, e0, e1, e2, m0, m1, m2]
  rfl

theorem half_surfaces_congr {R V : Type} (a b : List (SplitResult R V)) (is_upper : Bool)
    (h : a.map (fun r => (r.material, r.side_faces is_upper))
       = b.map (fun r => (r.material, r.side_faces is_upper))) :
    half_surfaces a is_upper = half_surfaces b is_upper := by
  have key : ∀ l : List (SplitResult R V), half_surfaces l is_upper
      = ((l.map (fun r => (r.material, r.side_faces is_upper))).filter
          (fun p => !p.2.isEmpty)).map (fun p => ⟨p.2.flatMap SlicerFace.vertices, p.1⟩) := by
    intro l
    simp only [half_surfaces, List.filter_map, List.map_map]
    rfl
  rw [key a, key b, h]

theorem length_half_surfaces_le {R V : Type} (l : List (SplitResult R V)) (is_upper : Bool) :
    (half_surfaces l is_upper).length ≤ l.length := by
  simp only [half_surfaces, List.length_map]
  exact List.length_filter_le _ _

theorem length_cap_faces {V : Type} (faces : List (SlicerFace V)) (is_upper : Bool) :
    (cap_faces faces is_upper).length = faces.length := by
  cases is_upper <;> simp [cap_faces]

theorem getD_cap_faces_upper {V : Type} [Inhabited V] (faces : List (SlicerFace V)) (i : Nat) :
    (cap_faces faces true).getD i default = (faces.getD i default).flipped := by
  simp only [cap_faces, if_true, List.getD_eq_getElem?_getD, List.getElem?_map]
  cases faces[i]? <;> rfl

theorem getD_cap_faces_lower {V : Type} [Inhabited V] (faces : List (SlicerFace V)) (i : Nat) :
    (cap_faces faces false).getD i default = faces.getD i default := by
  simp [cap_faces]

/-! ## Properties of the sliced-mesh assembly -/

/-- C2: for every list of cap triangles, whatever the meshes and materials,
`create_cross_section_surface` adds no surface to either half when the list is empty and
otherwise adds exactly one cap surface to the upper half and one to the lower half. Both caps
hold three vertex records for each cap triangle; triangle `i` of the lower cap is cap triangle
`i`, and triangle `i` of the upper cap has the same three vertices with the opposite winding:
`(a, c, b)` against `(a, b, c)`. The caps that `SlicedMesh::create_mesh` puts at the end of
`upper_mesh` and of `lower_mesh` are built so. -/
theorem cap_surfaces_opposite_winding {R V : Type} [Inhabited V] (faces : List (SlicerFace V))
    (material_u material_l : Ref Material) (mesh_u mesh_l : ArrayMesh V)
    (self : SlicedMesh V) (surface_splits : List (SplitResult R V))
    (cross_section_material : Ref Material) :
    (faces = [] →
      create_cross_section_surface faces material_u (some mesh_u) true = some mesh_u ∧
      create_cross_section_surface faces material_l (some mesh_l) false = some mesh_l) ∧
    (faces ≠ [] →
      ∃ cap_u cap_l : MeshSurface V,
        create_cross_section_surface faces material_u (some mesh_u) true
          = some ⟨mesh_u.surfaces ++ [cap_u]⟩ ∧
        create_cross_section_surface faces material_l (some mesh_l) false
          = some ⟨mesh_l.surfaces ++ [cap_l]⟩ ∧
        cap_u.material = material_u ∧ cap_l.material = material_l ∧
        cap_u.vertices = faces.flatMap (fun f => [f.v0, f.v2, f.v1]) ∧
        cap_l.vertices = faces.flatMap (fun f => [f.v0, f.v1, f.v2]) ∧
        cap_u.vertices.length = faces.length * 3 ∧ cap_l.vertices.length = faces.length * 3 ∧
        ∀ i (h : i < faces.length),
          cap_l.triangle i = faces[i] ∧
          cap_u.triangle i = (cap_l.triangle i).flipped ∧
          cap_u.triangle i
            = ⟨(cap_l.triangle i).v0, (cap_l.triangle i).v2, (cap_l.triangle i).v1⟩) ∧
    (self.create_mesh surface_splits faces cross_section_material).upper_mesh
      = create_cross_section_surface faces
          (cap_material cross_section_material (half_surfaces surface_splits true))
          (some ⟨half_surfaces surface_splits true⟩) true ∧
    (self.create_mesh surface_splits faces cross_section_material).lower_mesh
      = create_cross_section_surface faces
          (cap_material cross_section_material (half_surfaces surface_splits false))
          (some ⟨half_surfaces surface_splits false⟩) false := by
  refine ⟨?_, ?_, ?_, ?_⟩
  · intro h
    subst h
    exact ⟨rfl, rfl⟩
  · intro hne
    have hfalse : faces.isEmpty = false := by
      cases faces with
      | nil => exact absurd rfl hne
      | cons f t => rfl
    refine ⟨⟨(cap_faces faces true).flatMap SlicerFace.vertices, material_u⟩,
      ⟨(cap_faces faces false).flatMap SlicerFace.vertices, material_l⟩,
      ?_, ?_, rfl, rfl, ?_, ?_, ?_, ?_, ?_⟩
    · rw [create_cross_section_surface_some, hfalse]; rfl
    · rw [create_cross_section_surface_some, hfalse]; rfl
    · simp only [cap_faces, if_true, List.flatMap_map]
      rfl
    · rfl
    · rw [length_flatMap_vertices, length_cap_faces]
    · rw [length_flatMap_vertices, length_cap_faces]
    · intro i h
      have hget : faces.getD i default = faces[i] := by simp [h]
      rw [triangle_flatMap_vertices, triangle_flatMap_vertices, getD_cap_faces_upper,
        getD_cap_faces_lower, hget]
      exact ⟨rfl, rfl, rfl⟩
  · simp only [SlicedMesh.create_mesh, create_mesh_half_eq, create_cross_section_surface_some]
  · simp only [SlicedMesh.create_mesh, create_mesh_half_eq, create_cross_section_surface_some]

/-- C2, on one cap triangle between the vertex records 1, 2, 3: the cap of the upper half holds
`(1, 3, 2)` and the cap of the lower half holds `(1, 2, 3)`. -/
theorem cap_surfaces_opposite_winding_witness :
    ∃ cap_u cap_l : MeshSurface Nat,
      create_cross_section_surface [⟨1, 2, 3⟩] none (some ArrayMesh.new) true
        = some ⟨(ArrayMesh.new : ArrayMesh Nat).surfaces ++ [cap_u]⟩ ∧
      create_cross_section_surface [⟨1, 2, 3⟩] none (some ArrayMesh.new) false
        = some ⟨(ArrayMesh.new : ArrayMesh Nat).surfaces ++ [cap_l]⟩ ∧
      cap_u.vertices = [1, 3, 2] ∧ cap_l.vertices = [1, 2, 3] ∧
      cap_u.triangle 0 = (cap_l.triangle 0).flipped := by
  obtain ⟨cap_u, cap_l, h1, h2, _, _, h5, h6, _, _, h9⟩ :=
    (cap_surfaces_opposite_winding [(⟨1, 2, 3⟩ : SlicerFace Nat)] none none ArrayMesh.new
      ArrayMesh.new SlicedMesh.instantiate ([] : List (SplitResult Int Nat)) none).2.1
      (by decide)
  exact ⟨cap_u, cap_l, h1, h2, h5, h6, (h9 0 (by decide)).2.1⟩

/-- C3, as the code has it: the cap triangles are placed in the cap surface of the lower half
with their vertex order unchanged, triangle `i` being `cross_section_faces[i]`, and it is the
copy in the upper half whose winding is reversed, triangle `i` being `cross_section_faces[i]`
with its last two vertices exchanged. -/
theorem cap_reversed_in_upper_half {R V : Type} [Inhabited V]
    (surface_splits : List (SplitResult R V)) (cross_section_faces : List (SlicerFace V))
    (cross_section_material : Ref Material) (f : SlicerFace V) (rest : List (SlicerFace V))
    (hfaces : cross_section_faces = f :: rest) :
    ∃ cap_u cap_l : MeshSurface V,
      create_mesh_half surface_splits cross_section_faces cross_section_material true
        = some ⟨half_surfaces surface_splits true ++ [cap_u]⟩ ∧
      create_mesh_half surface_splits cross_section_faces cross_section_material false
        = some ⟨half_surfaces surface_splits false ++ [cap_l]⟩ ∧
      cap_l.vertices = cross_section_faces.flatMap SlicerFace.vertices ∧
      cap_u.vertices
        = cross_section_faces.flatMap (fun face => [face.v0, face.v2, face.v1]) ∧
      ∀ i (h : i < cross_section_faces.length),
        cap_l.triangle i = cross_section_faces[i] ∧
        cap_u.triangle i
          = ⟨(cross_section_faces[i]).v0, (cross_section_faces[i]).v2,
             (cross_section_faces[i]).v1⟩ := by
  have hne : cross_section_faces.isEmpty = false := by rw [hfaces]; rfl
  refine ⟨⟨(cap_faces cross_section_faces true).flatMap SlicerFace.vertices,
      cap_material cross_section_material (half_surfaces surface_splits true)⟩,
    ⟨(cap_faces cross_section_faces false).flatMap SlicerFace.vertices,
      cap_material cross_section_material (half_surfaces surface_splits false)⟩,
    ?_, ?_, ?_, ?_, ?_⟩
  · rw [create_mesh_half_eq, hne]; rfl
  · rw [create_mesh_half_eq, hne]; rfl
  · simp [cap_faces]
  · simp only [cap_faces, if_true, List.flatMap_map]
    rfl
  · intro i h
    have hget : cross_section_faces.getD i default = cross_section_faces[i] := by simp [h]
    rw [triangle_flatMap_vertices, triangle_flatMap_vertices, getD_cap_faces_upper,
      getD_cap_faces_lower, hget]
    exact ⟨rfl, rfl⟩

/-- C3, as the code has it, on one cap triangle and no split result. -/
theorem cap_reversed_in_upper_half_witness :
    ∃ cap_u cap_l : MeshSurface Nat,
      create_mesh_half ([] : List (SplitResult Int Nat)) [⟨1, 2, 3⟩] none true
        = some ⟨half_surfaces ([] : List (SplitResult Int Nat)) true ++ [cap_u]⟩ ∧
      create_mesh_half ([] : List (SplitResult Int Nat)) [⟨1, 2, 3⟩] none false
        = some ⟨half_surfaces ([] : List (SplitResult Int Nat)) false ++ [cap_l]⟩ ∧
      cap_l.vertices = [(⟨1, 2, 3⟩ : SlicerFace Nat)].flatMap SlicerFace.vertices ∧
      cap_u.vertices
        = [(⟨1, 2, 3⟩ : SlicerFace Nat)].flatMap (fun face => [face.v0, face.v2, face.v1]) ∧
      ∀ i (h : i < [(⟨1, 2, 3⟩ : SlicerFace Nat)].length),
        cap_l.triangle i = [(⟨1, 2, 3⟩ : SlicerFace Nat)][i] ∧
        cap_u.triangle i
          = ⟨([(⟨1, 2, 3⟩ : SlicerFace Nat)][i]).v0, ([(⟨1, 2, 3⟩ : SlicerFace Nat)][i]).v2,
             ([(⟨1, 2, 3⟩ : SlicerFace Nat)][i]).v1⟩ :=
  cap_reversed_in_upper_half [] [⟨1, 2, 3⟩] none ⟨1, 2, 3⟩ [] rfl

/-- C3 fails as stated: for the single cap triangle `(1, 2, 3)` the cap of the upper half holds
`(1, 3, 2)`, not `(1, 2, 3)`, and the cap of the lower half holds `(1, 2, 3)`, not
`(1, 3, 2)`. -/
theorem cap_unchanged_in_upper_half_counterexample :
    create_mesh_half ([] : List (SplitResult Int Nat)) [⟨1, 2, 3⟩] none true
      = some ⟨[⟨[1, 3, 2], some Material.standard_material_3d⟩]⟩ ∧
    create_mesh_half ([] : List (SplitResult Int Nat)) [⟨1, 2, 3⟩] none false
      = some ⟨[⟨[1, 2, 3], some Material.standard_material_3d⟩]⟩ ∧
    ¬ (create_mesh_half ([] : List (SplitResult Int Nat)) [⟨1, 2, 3⟩] none true
        = some ⟨[⟨[1, 2, 3], some Material.standard_material_3d⟩]⟩ ∧
       create_mesh_half ([] : List (SplitResult Int Nat)) [⟨1, 2, 3⟩] none false
        = some ⟨[⟨[1, 3, 2], some Material.standard_material_3d⟩]⟩) := by
  decide

/-- C6: for every list of split results, the surfaces of the upper half built by
`create_mesh_half`, its cap (at most one surface, the last) set aside, are exactly one surface
for each split result whose `upper_faces` is not empty, in the order of the split results, each
holding the three vertex records of every face of `upper_faces` in order, under the material of
that split result; the upper half is the same for any other list of split results with the same
materials and `upper_faces`, so nothing of any `lower_faces` enters it. The same holds for the
lower half with `lower_faces`. -/
theorem half_surfaces_verbatim {R V : Type} [Inhabited V]
    (surface_splits : List (SplitResult R V)) (cross_section_faces : List (SlicerFace V))
    (cross_section_material : Ref Material) :
    (∃ cap : List (MeshSurface V),
      create_mesh_half surface_splits cross_section_faces cross_section_material true
        = some ⟨(surface_splits.filter (fun r => !r.upper_faces.isEmpty)).map
            (fun r => ⟨r.upper_faces.flatMap (fun f => [f.v0, f.v1, f.v2]), r.material⟩)
          ++ cap⟩ ∧
      cap.length = if cross_section_faces.isEmpty then 0 else 1) ∧
    (∃ cap : List (MeshSurface V),
      create_mesh_half surface_splits cross_section_faces cross_section_material false
        = some ⟨(surface_splits.filter (fun r => !r.lower_faces.isEmpty)).map
            (fun r => ⟨r.lower_faces.flatMap (fun f => [f.v0, f.v1, f.v2]), r.material⟩)
          ++ cap⟩ ∧
      cap.length = if cross_section_faces.isEmpty then 0 else 1) ∧
    (∀ other : List (SplitResult R V),
      other.map (fun r => (r.material, r.upper_faces))
        = surface_splits.map (fun r => (r.material, r.upper_faces)) →
      create_mesh_half other cross_section_faces cross_section_material true
        = create_mesh_half surface_splits cross_section_faces cross_section_material true) ∧
    (∀ other : List (SplitResult R V),
      other.map (fun r => (r.material, r.lower_faces))
        = surface_splits.map (fun r => (r.material, r.lower_faces)) →
      create_mesh_half other cross_section_faces cross_section_material false
        = create_mesh_half surface_splits cross_section_faces cross_section_material false) := by
  refine ⟨⟨_, create_mesh_half_eq surface_splits cross_section_faces cross_section_material true,
      ?_⟩,
    ⟨_, create_mesh_half_eq surface_splits cross_section_faces cross_section_material false,
      ?_⟩, ?_, ?_⟩
  · cases cross_section_faces <;> rfl
  · cases cross_section_faces <;> rfl
  · intro other h
    rw [create_mesh_half_eq, create_mesh_half_eq, half_surfaces_congr other surface_splits true h]
  · intro other h
    rw [create_mesh_half_eq, create_mesh_half_eq,
      half_surfaces_congr other surface_splits false h]

/-- C6, on two split results of which the first has no upper face, against a list that differs
in its lower faces only. -/
theorem half_surfaces_verbatim_witness :
    create_mesh_half
        ([⟨none, [], [⟨4, 5, 6⟩], []⟩, ⟨none, [⟨1, 2, 3⟩], [], []⟩] : List (SplitResult Int Nat))
        [] none true
      = create_mesh_half
        ([⟨none, [], [], []⟩, ⟨none, [⟨1, 2, 3⟩], [⟨7, 8, 9⟩], []⟩] : List (SplitResult Int Nat))
        [] none true :=
  (half_surfaces_verbatim
    ([⟨none, [], [], []⟩, ⟨none, [⟨1, 2, 3⟩], [⟨7, 8, 9⟩], []⟩] : List (SplitResult Int Nat))
    [] none).2.2.1 [⟨none, [], [⟨4, 5, 6⟩], []⟩, ⟨none, [⟨1, 2, 3⟩], [], []⟩] (by decide)

/-- C4, as the code has it: when there are cap triangles, the cap of each half of
`SlicedMesh::create_mesh` is the last surface of that half, and its material is the material
given by the caller when there is one; otherwise the material of surface 0 of that same half,
that is of the first split result whose face list for that side is not empty, when that surface
has a material; otherwise, the half having no surface yet, a new default material. -/
theorem cap_material_rule {R V : Type} [Inhabited V] (self : SlicedMesh V)
    (surface_splits : List (SplitResult R V)) (cross_section_faces : List (SlicerFace V))
    (cross_section_material : Ref Material)
    (hfaces : cross_section_faces.isEmpty = false) (is_upper : Bool) :
    ∃ cap : MeshSurface V,
      (if is_upper then
          (self.create_mesh surface_splits cross_section_faces cross_section_material).upper_mesh
        else
          (self.create_mesh surface_splits cross_section_faces cross_section_material).lower_mesh)
        = some ⟨(surface_splits.filter (fun r => !(r.side_faces is_upper).isEmpty)).map
            (fun r => ⟨(r.side_faces is_upper).flatMap SlicerFace.vertices, r.material⟩)
          ++ [cap]⟩ ∧
      (∀ m, cross_section_material = some m → cap.material = some m) ∧
      (cross_section_material = none →
        ∀ r m, (surface_splits.filter (fun r => !(r.side_faces is_upper).isEmpty)).head? = some r →
          r.material = some m → cap.material = some m) ∧
      (cross_section_material = none →
        (surface_splits.filter (fun r => !(r.side_faces is_upper).isEmpty)) = [] →
          cap.material = some Material.standard_material_3d) := by
  refine ⟨⟨(cap_faces cross_section_faces is_upper).flatMap SlicerFace.vertices,
    cap_material cross_section_material (half_surfaces surface_splits is_upper)⟩, ?_, ?_, ?_, ?_⟩
  · cases is_upper
    · simp only [SlicedMesh.create_mesh, Bool.false_eq_true, if_false, create_mesh_half_eq,
        hfaces]
      rfl
    · simp only [SlicedMesh.create_mesh, if_true, create_mesh_half_eq, hfaces]
      rfl
  · intro m hm
    simp [hm, cap_material]
  · intro hm r m hr hrm
    cases hl : surface_splits.filter (fun r => !(r.side_faces is_upper).isEmpty) with
    | nil => simp [hl] at hr
    | cons a t =>
      rw [hl] at hr
      simp only [List.head?_cons, Option.some.injEq] at hr
      simp [hm, cap_material, half_surfaces, hl, hr, hrm]
  · intro hm hl
    simp [hm, cap_material, half_surfaces, hl]

/-- C4, as the code has it, on the upper half of one split result with material 7 and no
material from the caller. -/
theorem cap_material_rule_witness :
    ∃ cap : MeshSurface Nat,
      (SlicedMesh.instantiate.create_mesh
        ([⟨some (Material.resource 7), [⟨1, 2, 3⟩], [], []⟩] : List (SplitResult Int Nat))
        [⟨4, 5, 6⟩] none).upper_mesh
        = some ⟨[⟨[1, 2, 3], some (Material.resource 7)⟩] ++ [cap]⟩ ∧
      cap.material = some (Material.resource 7) := by
  obtain ⟨cap, h1, _, h3, _⟩ := cap_material_rule SlicedMesh.instantiate
    ([⟨some (Material.resource 7), [⟨1, 2, 3⟩], [], []⟩] : List (SplitResult Int Nat))
    [⟨4, 5, 6⟩] none rfl true
  exact ⟨cap, h1, h3 rfl _ _ rfl rfl⟩

/-- C4 fails as stated. With no material from the caller, split results whose first surface has
material 5 and no upper face give the cap of the upper half material 7 and the cap of the lower
half material 5; slicing the mesh `example_mesh_below` does so. Slicing `example_mesh`, whose
first surface has no material and whose second has material 7, leaves the cap of the upper half
without material. -/
theorem cap_material_counterexample :
    (SlicedMesh.instantiate.create_mesh
        ([⟨some (Material.resource 5), [], [⟨1, 2, 3⟩], []⟩,
          ⟨some (Material.resource 7), [⟨4, 5, 6⟩], [⟨7, 8, 9⟩], []⟩] :
          List (SplitResult Int Nat))
        [⟨10, 11, 12⟩] none)
      = ⟨some ⟨[⟨[4, 5, 6], some (Material.resource 7)⟩,
                ⟨[10, 12, 11], some (Material.resource 7)⟩]⟩,
         some ⟨[⟨[1, 2, 3], some (Material.resource 5)⟩,
                ⟨[7, 8, 9], some (Material.resource 7)⟩,
                ⟨[10, 11, 12], some (Material.resource 5)⟩]⟩⟩ ∧
    (slice_by_plane example_split_face_by_plane id example_monotone_chain
        (some example_mesh_below) example_plane none).map
      (fun sliced => (ArrayMesh.materials sliced.upper_mesh,
        ArrayMesh.materials sliced.lower_mesh))
      = some ([some (Material.resource 7), some (Material.resource 7)],
          [some (Material.resource 5), some (Material.resource 7),
           some (Material.resource 5)]) ∧
    (slice_by_plane example_split_face_by_plane id example_monotone_chain
        (some example_mesh) example_plane none).map
      (fun sliced => (ArrayMesh.materials sliced.upper_mesh,
        ArrayMesh.materials sliced.lower_mesh))
      = some ([none, some (Material.resource 7), none],
          [some (Material.resource 7), some (Material.resource 7)]) := by
  decide

/-! ## Properties of the slice orchestration -/

theorem split_foldl_points {R V : Type}
    (split_face_by_plane : Plane R → SlicerFace V → SplitResult R V → SplitResult R V)
    (plane : Plane R) (faces : List (SlicerFace V))
    (h : ∀ f ∈ faces, ∀ r, (split_face_by_plane plane f r).intersection_points
      = r.intersection_points) (init : SplitResult R V) :
    (faces.foldl (fun r f => split_face_by_plane plane f r) init).intersection_points
      = init.intersection_points := by
  induction faces generalizing init with
  | nil => rfl
  | cons f t ih =>
    simp only [List.foldl_cons]
    rw [ih (fun g hg => h g (List.mem_cons_of_mem _ hg)), h f (List.mem_cons_self _ _)]

theorem split_foldl_material {R V : Type}
    (split_face_by_plane : Plane R → SlicerFace V → SplitResult R V → SplitResult R V)
    (plane : Plane R) (faces : List (SlicerFace V))
    (h : ∀ p f r, (split_face_by_plane p f r).material = r.material) (init : SplitResult R V) :
    (faces.foldl (fun r f => split_face_by_plane plane f r) init).material = init.material := by
  induction faces generalizing init with
  | nil => rfl
  | cons f t ih =>
    simp only [List.foldl_cons]
    rw [ih, h]

/-- C1: `slice_by_plane` produces a `SlicedMesh` exactly when the mesh is present and the
boundary points of its surfaces, concatenated over all faces of all surfaces, are not empty.
The result is none for an absent mesh, for a mesh with no surface, and for a mesh none of whose
faces adds a boundary point when split by the plane; in every other case a `SlicedMesh` with
both `upper_mesh` and `lower_mesh` set is returned. -/
theorem slice_by_plane_produces_iff {R V A : Type} [Inhabited R] [Inhabited V]
    (split_face_by_plane : Plane R → SlicerFace V → SplitResult R V → SplitResult R V)
    (surface_faces : A → List (SlicerFace V))
    (monotone_chain : List (Vector3 R) → Vector3 R → List (SlicerFace V))
    (mesh : Ref (Mesh A)) (plane : Plane R) (cross_section_material : Ref Material) :
    ((slice_by_plane split_face_by_plane surface_faces monotone_chain mesh plane
        cross_section_material).isSome
      ↔ ∃ m, mesh = some m ∧
          (m.surfaces.map (fun s =>
            ((surface_faces s.arrays).foldl (fun r f => split_face_by_plane plane f r)
              ⟨s.material, [], [], []⟩).intersection_points)).flatten ≠ []) ∧
    slice_by_plane split_face_by_plane surface_faces monotone_chain none plane
        cross_section_material = none ∧
    (∀ m : Mesh A, m.surfaces = [] →
      slice_by_plane split_face_by_plane surface_faces monotone_chain (some m) plane
        cross_section_material = none) ∧
    (∀ m : Mesh A,
      (∀ s ∈ m.surfaces, ∀ f ∈ surface_faces s.arrays, ∀ r,
        (split_face_by_plane plane f r).intersection_points = r.intersection_points) →
      slice_by_plane split_face_by_plane surface_faces monotone_chain (some m) plane
        cross_section_material = none) ∧
    (∀ m : Mesh A,
      (m.surfaces.map (fun s =>
        ((surface_faces s.arrays).foldl (fun r f => split_face_by_plane plane f r)
          ⟨s.material, [], [], []⟩).intersection_points)).flatten ≠ [] →
      ∃ sliced upper lower,
        slice_by_plane split_face_by_plane surface_faces monotone_chain (some m) plane
          cross_section_material = some sliced ∧
        sliced.upper_mesh = some upper ∧ sliced.lower_mesh = some lower) ∧
    (∀ sliced, slice_by_plane split_face_by_plane surface_faces monotone_chain mesh plane
        cross_section_material = some sliced →
      sliced.upper_mesh.isSome ∧ sliced.lower_mesh.isSome) := by
  have hbp : ∀ m : Mesh A,
      (m.surfaces.map (fun s =>
        ((surface_faces s.arrays).foldl (fun r f => split_face_by_plane plane f r)
          ⟨s.material, [], [], []⟩).intersection_points)).flatten
        = boundary_points split_face_by_plane surface_faces plane m := fun _ => rfl
  refine ⟨?_, rfl, ?_, ?_, ?_, ?_⟩
  · cases mesh with
    | none => simp [slice_by_plane]
    | some m =>
      simp only [slice_by_plane_some, hbp]
      cases h : boundary_points split_face_by_plane surface_faces plane m <;> simp [h]
  · intro m hm
    rw [slice_by_plane_some]
    simp [boundary_points, hm]
  · intro m hm
    rw [slice_by_plane_some]
    have : boundary_points split_face_by_plane surface_faces plane m = [] := by
      unfold boundary_points
      rw [List.flatten_eq_nil_iff]
      intro l hl
      obtain ⟨s, hs, rfl⟩ := List.mem_map.mp hl
      exact split_foldl_points split_face_by_plane plane _ (hm s hs) _
    simp [this]
  · intro m hne
    rw [hbp] at hne
    rw [slice_by_plane_some]
    have hfalse : (boundary_points split_face_by_plane surface_faces plane m).isEmpty
        = false := by
      cases h : boundary_points split_face_by_plane surface_faces plane m with
      | nil => exact absurd h hne
      | cons a t => rfl
    rw [hfalse]
    exact ⟨_, _, _, rfl, create_mesh_half_eq _ _ _ true, create_mesh_half_eq _ _ _ false⟩
  · intro sliced h
    cases mesh with
    | none => simp [slice_by_plane] at h
    | some m =>
      rw [slice_by_plane_some] at h
      split at h
      · simp at h
      · simp only [Option.some.injEq] at h
        subst h
        simp [SlicedMesh.create_mesh, create_mesh_half_eq]

/-- C1, on the example mesh, which the plane `y = 0` crosses in its second surface, and on a
mesh above that plane. -/
theorem slice_by_plane_produces_iff_witness :
    (slice_by_plane example_split_face_by_plane id example_monotone_chain (some example_mesh)
        example_plane none).isSome = true ∧
    (∃ sliced upper lower,
      slice_by_plane example_split_face_by_plane id example_monotone_chain (some example_mesh)
        example_plane none = some sliced ∧
      sliced.upper_mesh = some upper ∧ sliced.lower_mesh = some lower) ∧
    slice_by_plane example_split_face_by_plane id example_monotone_chain
        (some example_mesh_above) example_plane none = none :=
  ⟨(slice_by_plane_produces_iff example_split_face_by_plane id example_monotone_chain
      (some example_mesh) example_plane none).1.mpr ⟨example_mesh, rfl, by decide⟩,
   (slice_by_plane_produces_iff example_split_face_by_plane id example_monotone_chain
      (some example_mesh) example_plane none).2.2.2.2.1 example_mesh (by decide),
   (slice_by_plane_produces_iff example_split_face_by_plane id example_monotone_chain
      (some example_mesh_above) example_plane none).2.2.2.1 example_mesh_above (by
        intro s hs f hf r
        simp only [example_mesh_above, List.mem_singleton] at hs
        subst hs
        simp only [id, example_tetrahedron, List.mem_cons, List.mem_singleton,
          List.not_mem_nil, or_false] at hf
        rcases hf with rfl | rfl | rfl | rfl <;>
          simp [example_split_face_by_plane, Plane.distance_to, Vector3.dot, example_plane])⟩

theorem stored_split_getElem? {R V A : Type} [Inhabited R] [Inhabited V]
    (split_face_by_plane : Plane R → SlicerFace V → SplitResult R V → SplitResult R V)
    (surface_faces : A → List (SlicerFace V)) (mesh : Mesh A) (plane : Plane R) (i : Nat) :
    (split_surfaces split_face_by_plane surface_faces mesh plane).1[i]?
      = (mesh.surfaces[i]?).map (stored_split split_face_by_plane surface_faces plane) := by
  rw [split_surfaces_eq]
  simp

/-- C9: the list of split results that the surface loop of `slice_by_plane` builds has one
entry for each surface of the mesh; the upper and lower faces of entry `i` are those obtained by
splitting the faces of surface `i`, in face order, starting from an empty record; entry `i`
carries the material of surface `i`, the splitter leaving the material of a record as it is; and
entry `i` is the same for any other mesh that has the same surface `i`. -/
theorem one_split_result_per_surface {R V A : Type} [Inhabited R] [Inhabited V]
    (split_face_by_plane : Plane R → SlicerFace V → SplitResult R V → SplitResult R V)
    (surface_faces : A → List (SlicerFace V)) (mesh : Mesh A) (plane : Plane R) :
    (split_surfaces split_face_by_plane surface_faces mesh plane).1.length
      = mesh.get_surface_count ∧
    (∀ i (h : i < mesh.surfaces.length),
      ∃ entry, (split_surfaces split_face_by_plane surface_faces mesh plane).1[i]? = some entry ∧
        entry.upper_faces
          = ((surface_faces (mesh.surfaces[i]).arrays).foldl
              (fun r f => split_face_by_plane plane f r)
              ⟨(mesh.surfaces[i]).material, [], [], []⟩).upper_faces ∧
        entry.lower_faces
          = ((surface_faces (mesh.surfaces[i]).arrays).foldl
              (fun r f => split_face_by_plane plane f r)
              ⟨(mesh.surfaces[i]).material, [], [], []⟩).lower_faces ∧
        ((∀ p f r, (split_face_by_plane p f r).material = r.material) →
          entry.material = mesh.surface_get_material i)) ∧
    (∀ (other : Mesh A) (i : Nat), other.surfaces[i]? = mesh.surfaces[i]? →
      (split_surfaces split_face_by_plane surface_faces other plane).1[i]?
        = (split_surfaces split_face_by_plane surface_faces mesh plane).1[i]?) := by
  refine ⟨?_, ?_, ?_⟩
  · rw [split_surfaces_eq]
    simp [Mesh.get_surface_count]
  · intro i h
    refine ⟨stored_split split_face_by_plane surface_faces plane (mesh.surfaces[i]), ?_, rfl,
      rfl, ?_⟩
    · rw [stored_split_getElem?]
      simp [h]
    · intro hframe
      have hmat : mesh.surface_get_material i = (mesh.surfaces[i]).material := by
        simp [Mesh.surface_get_material, h]
      rw [hmat]
      exact split_foldl_material split_face_by_plane plane _ hframe _
  · intro other i h
    rw [stored_split_getElem?, stored_split_getElem?, h]

/-- C9, on the example mesh: entry 1 carries material 7 of surface 1 and is the same when
surface 0 is replaced. -/
theorem one_split_result_per_surface_witness :
    (∃ entry, (split_surfaces example_split_face_by_plane id example_mesh example_plane).1[1]?
        = some entry ∧ entry.material = some (Material.resource 7)) ∧
    (split_surfaces example_split_face_by_plane id
        (⟨[⟨none, []⟩, ⟨some (Material.resource 7), example_tetrahedron 0⟩]⟩ :
          Mesh (List (SlicerFace (Vector3 ℤ)))) example_plane).1[1]?
      = (split_surfaces example_split_face_by_plane id example_mesh example_plane).1[1]? := by
  have h := one_split_result_per_surface example_split_face_by_plane id example_mesh
    example_plane
  refine ⟨?_, h.2.2 _ 1 rfl⟩
  obtain ⟨entry, h1, _, _, h4⟩ := h.2.1 1 (by decide)
  refine ⟨entry, h1, ?_⟩
  rw [h4]
  · rfl
  · intro p f r
    unfold example_split_face_by_plane
    simp only
    split_ifs <;> rfl

/-- C10: the point list that the surface loop of `slice_by_plane` accumulates is the
concatenation, in surface order, of the boundary points that the splitting of each surface
produced, so its length is the sum of the counts per surface; every stored split result is left
with an empty list of boundary points; and when the list is not empty the result is assembled
from the cap triangles that the triangulator returns for this whole list and the normal of the
plane. -/
theorem boundary_points_concatenated {R V A : Type} [Inhabited R] [Inhabited V]
    (split_face_by_plane : Plane R → SlicerFace V → SplitResult R V → SplitResult R V)
    (surface_faces : A → List (SlicerFace V))
    (monotone_chain : List (Vector3 R) → Vector3 R → List (SlicerFace V))
    (mesh : Mesh A) (plane : Plane R) (cross_section_material : Ref Material) :
    (split_surfaces split_face_by_plane surface_faces mesh plane).2
      = (mesh.surfaces.map (fun s =>
          ((surface_faces s.arrays).foldl (fun r f => split_face_by_plane plane f r)
            ⟨s.material, [], [], []⟩).intersection_points)).flatten ∧
    (split_surfaces split_face_by_plane surface_faces mesh plane).2.length
      = (mesh.surfaces.map (fun s =>
          ((surface_faces s.arrays).foldl (fun r f => split_face_by_plane plane f r)
            ⟨s.material, [], [], []⟩).intersection_points.length)).sum ∧
    (∀ r ∈ (split_surfaces split_face_by_plane surface_faces mesh plane).1,
      r.intersection_points = []) ∧
    ((split_surfaces split_face_by_plane surface_faces mesh plane).2 ≠ [] →
      slice_by_plane split_face_by_plane surface_faces monotone_chain (some mesh) plane
          cross_section_material
        = some (SlicedMesh.instantiate.create_mesh
            (split_surfaces split_face_by_plane surface_faces mesh plane).1
            (monotone_chain
              (mesh.surfaces.map (fun s =>
                ((surface_faces s.arrays).foldl (fun r f => split_face_by_plane plane f r)
                  ⟨s.material, [], [], []⟩).intersection_points)).flatten
              plane.normal)
            cross_section_material)) := by
  refine ⟨?_, ?_, ?_, ?_⟩
  · rw [split_surfaces_eq]; rfl
  · rw [split_surfaces_eq]
    simp only [boundary_points, List.length_flatten, List.map_map]
    rfl
  · intro r hr
    rw [split_surfaces_eq] at hr
    obtain ⟨s, _, rfl⟩ := List.mem_map.mp hr
    rfl
  · intro hne
    rw [slice_by_plane_some]
    rw [split_surfaces_eq] at hne ⊢
    have hfalse : (boundary_points split_face_by_plane surface_faces plane mesh).isEmpty
        = false := by
      cases h : boundary_points split_face_by_plane surface_faces plane mesh with
      | nil => exact absurd h hne
      | cons a t => rfl
    rw [hfalse]
    rfl

/-- C10, on the example mesh: the six boundary points all come from surface 1. -/
theorem boundary_points_concatenated_witness :
    (split_surfaces example_split_face_by_plane id example_mesh example_plane).2
      = [⟨-1, 0, -1⟩, ⟨1, 0, -1⟩, ⟨1, 0, -1⟩, ⟨0, 0, 1⟩, ⟨0, 0, 1⟩, ⟨-1, 0, -1⟩] ∧
    slice_by_plane example_split_face_by_plane id example_monotone_chain (some example_mesh)
        example_plane none
      = some (SlicedMesh.instantiate.create_mesh
          (split_surfaces example_split_face_by_plane id example_mesh example_plane).1
          (example_monotone_chain
            [⟨-1, 0, -1⟩, ⟨1, 0, -1⟩, ⟨1, 0, -1⟩, ⟨0, 0, 1⟩, ⟨0, 0, 1⟩, ⟨-1, 0, -1⟩]
            example_plane.normal)
          none) :=
  ⟨by decide,
   (boundary_points_concatenated example_split_face_by_plane id example_monotone_chain
      example_mesh example_plane none).2.2.2 (by decide)⟩

/-! ## The number of surfaces of each half -/

theorem length_half_surfaces_stored {R V A : Type}
    (split_face_by_plane : Plane R → SlicerFace V → SplitResult R V → SplitResult R V)
    (surface_faces : A → List (SlicerFace V)) (plane : Plane R) (l : List (Surface A))
    (is_upper : Bool) :
    (half_surfaces (l.map (stored_split split_face_by_plane surface_faces plane))
        is_upper).length
      = (l.filter (fun s =>
          !((split_surface split_face_by_plane surface_faces plane s).side_faces
            is_upper).isEmpty)).length := by
  simp only [half_surfaces, List.length_map, List.filter_map]
  rfl

/-- C5, as the code has it: in a `SlicedMesh` produced by `slice_by_plane`, the upper half has
one surface for each surface of the input mesh whose split left at least one upper face, plus
one cap surface when the triangulator returned at least one triangle; the lower half likewise
with the lower faces. Each count is at most the surface count of the input mesh plus one. -/
theorem half_surface_count {R V A : Type} [Inhabited R] [Inhabited V]
    (split_face_by_plane : Plane R → SlicerFace V → SplitResult R V → SplitResult R V)
    (surface_faces : A → List (SlicerFace V))
    (monotone_chain : List (Vector3 R) → Vector3 R → List (SlicerFace V))
    (mesh : Mesh A) (plane : Plane R) (cross_section_material : Ref Material)
    (sliced : SlicedMesh V)
    (h : slice_by_plane split_face_by_plane surface_faces monotone_chain (some mesh) plane
      cross_section_material = some sliced) :
    ArrayMesh.get_surface_count sliced.upper_mesh
      = (mesh.surfaces.filter (fun s =>
          !(split_surface split_face_by_plane surface_faces plane s).upper_faces.isEmpty)).length
        + (if (monotone_chain (split_surfaces split_face_by_plane surface_faces mesh plane).2
            plane.normal).isEmpty then 0 else 1) ∧
    ArrayMesh.get_surface_count sliced.lower_mesh
      = (mesh.surfaces.filter (fun s =>
          !(split_surface split_face_by_plane surface_faces plane s).lower_faces.isEmpty)).length
        + (if (monotone_chain (split_surfaces split_face_by_plane surface_faces mesh plane).2
            plane.normal).isEmpty then 0 else 1) ∧
    ArrayMesh.get_surface_count sliced.upper_mesh ≤ mesh.get_surface_count + 1 ∧
    ArrayMesh.get_surface_count sliced.lower_mesh ≤ mesh.get_surface_count + 1 := by
  rw [slice_by_plane_some] at h
  split at h
  · simp at h
  · simp only [Option.some.injEq] at h
    subst h
    have hu := length_half_surfaces_stored split_face_by_plane surface_faces plane
      mesh.surfaces true
    have hl := length_half_surfaces_stored split_face_by_plane surface_faces plane
      mesh.surfaces false
    have hu2 := length_half_surfaces_le
      (mesh.surfaces.map (stored_split split_face_by_plane surface_faces plane)) true
    have hl2 := length_half_surfaces_le
      (mesh.surfaces.map (stored_split split_face_by_plane surface_faces plane)) false
    simp only [List.length_map] at hu2 hl2
    simp only [SplitResult.side_faces, if_true, Bool.false_eq_true, if_false] at hu hl
    simp only [SlicedMesh.create_mesh, create_mesh_half_eq, ArrayMesh.get_surface_count,
      List.length_append, split_surfaces_eq, Mesh.get_surface_count, hu, hl] at hu2 hl2 ⊢
    refine ⟨?_, ?_, ?_, ?_⟩
    · split <;> rfl
    · split <;> rfl
    · split <;> simp <;> omega
    · split <;> simp <;> omega

/-- C5, as the code has it, on the example mesh: the lower half has two surfaces, one for the
surface that the plane crosses and the cap. -/
theorem half_surface_count_witness :
    ArrayMesh.get_surface_count
        (SlicedMesh.instantiate.create_mesh
          (split_surfaces example_split_face_by_plane id example_mesh example_plane).1
          (example_monotone_chain
            (split_surfaces example_split_face_by_plane id example_mesh example_plane).2
            example_plane.normal) none).lower_mesh = 1 + 1 ∧
    ArrayMesh.get_surface_count
        (SlicedMesh.instantiate.create_mesh
          (split_surfaces example_split_face_by_plane id example_mesh example_plane).1
          (example_monotone_chain
            (split_surfaces example_split_face_by_plane id example_mesh example_plane).2
            example_plane.normal) none).lower_mesh
      ≤ example_mesh.get_surface_count + 1 :=
  ⟨(half_surface_count example_split_face_by_plane id example_monotone_chain example_mesh
      example_plane none _ (by decide)).2.1,
   (half_surface_count example_split_face_by_plane id example_monotone_chain example_mesh
      example_plane none _ (by decide)).2.2.2⟩

/-- C5 fails as stated: the example mesh has two surfaces, the first wholly above the plane;
`slice_by_plane` produces a `SlicedMesh` whose upper half has three surfaces and whose lower
half has two, not three. -/
theorem half_surface_count_counterexample :
    example_mesh.get_surface_count = 2 ∧
    (slice_by_plane example_split_face_by_plane id example_monotone_chain (some example_mesh)
        example_plane none).map
      (fun sliced => (ArrayMesh.get_surface_count sliced.upper_mesh,
        ArrayMesh.get_surface_count sliced.lower_mesh)) = some (3, 2) := by
  decide

end GodotSlicer
